import Mathlib

/-!
Verification development for the `ufw-logs` repository.

The Python sources (`src/ufw/ufw.py`, `src/ufw/filter_tools.py`) are shallowly
embedded below.  Python's dynamically typed values are modelled by `PyPrim`
(primitive values that occur as attribute values of a log entry) and `PyVal`
(a primitive or a whole `UFWLogEntry` object).  Python exceptions are modelled
by the error type `PyErr` together with `Except`; fallible operations return
`Except PyErr _` and the translation preserves the order in which the source
evaluates (and hence raises from) its subexpressions.  Machine floats are
modelled exactly as decimal mantissa/exponent pairs plus the special values
(the development never depends on rounding, only on which strings the float
parser accepts and on exact decimal comparisons);
`re.findall` is modelled by an abstract match function `String → List String`
standing for the denotation of one fixed regular expression.
-/

namespace UfwLogs

set_option maxRecDepth 100000

/-- Python exceptions raised by the embedded code. -/
inductive PyErr where
  | valueError (msg : String)
  | indexError
  | typeError (msg : String)
  | attributeError (msg : String)
deriving DecidableEq, Repr

/-- A Python float: an exact finite decimal `mant / 10 ^ exp10`, a signed
infinity, or NaN (`neg = true` means negative infinity).  The decimal
representation is not canonical; `PyFloat.eqB` compares values. -/
inductive PyFloat where
  | num (mant : Int) (exp10 : Nat)
  | inf (neg : Bool)
  | nan
deriving DecidableEq, Repr

/-- A `datetime.datetime` value. -/
structure Datetime where
  year : Nat
  month : Nat
  day : Nat
  hour : Nat
  minute : Nat
  second : Nat
  microsecond : Nat
deriving DecidableEq, Repr

/-- Primitive Python values that occur as attribute values of a log entry. -/
inductive PyPrim where
  | pnone
  | pbool (b : Bool)
  | pint (n : Int)
  | pfloat (f : PyFloat)
  | pstr (s : String)
  | pdt (d : Datetime)
deriving DecidableEq, Repr

/-- `UFWLogEntry` (src/ufw/ufw.py, class `UFWLogEntry.__init__`): one parsed
log event.  Field order and defaults follow the attribute assignments of
`__init__`; `from_str` supplies a `datetime` / `str` / `float` / `str` for the
first four and primitive values for the rest, so the attribute slots are typed
`PyPrim`. -/
structure UFWLogEntry where
  event_datetime : Datetime
  hostname : String
  uptime : PyFloat
  event : PyPrim
  IN : PyPrim := .pnone
  OUT : PyPrim := .pnone
  MAC : PyPrim := .pnone
  SRC : PyPrim := .pnone
  DST : PyPrim := .pnone
  LEN : PyPrim := .pnone
  TC : PyPrim := .pnone
  TOS : PyPrim := .pnone
  PERC : PyPrim := .pnone
  TTL : PyPrim := .pnone
  ID : PyPrim := .pnone
  PROTO : PyPrim := .pnone
  SPT : PyPrim := .pnone
  DPT : PyPrim := .pnone
  WINDOW : PyPrim := .pnone
  RES : PyPrim := .pnone
  SYN_URGP : PyPrim := .pnone
  ACK : PyPrim := .pbool false
  PSH : PyPrim := .pbool false
deriving DecidableEq, Repr

/-- A Python value as passed around by the filtering code: a primitive or a
whole `UFWLogEntry` object. -/
inductive PyVal where
  | prim (p : PyPrim)
  | entry (e : UFWLogEntry)
deriving DecidableEq, Repr

/-- Python truthiness (`bool(x)`) for the modelled values.  Objects such as
log entries are always truthy. -/
def pyTruthy : PyVal → Bool
  | .prim .pnone => false
  | .prim (.pbool b) => b
  | .prim (.pint n) => n != 0
  | .prim (.pfloat (.num m _)) => m != 0
  | .prim (.pfloat (.inf _)) => true
  | .prim (.pfloat .nan) => true
  | .prim (.pstr s) => s != ""
  | .prim (.pdt _) => true
  | .entry _ => true

/-- View of a value as a number for Python's numeric comparisons
(`bool` counts as `0`/`1`, `int` embeds into the floats exactly). -/
def PyVal.asNum? : PyVal → Option PyFloat
  | .prim (.pbool b) => some (.num (if b then 1 else 0) 0)
  | .prim (.pint n) => some (.num n 0)
  | .prim (.pfloat f) => some f
  | _ => Option.none

/-- `<` on Python floats (NaN compares false with everything). -/
def PyFloat.ltB : PyFloat → PyFloat → Bool
  | .nan, _ => false
  | _, .nan => false
  | .num m1 e1, .num m2 e2 => m1 * (10 : Int) ^ e2 < m2 * (10 : Int) ^ e1
  | .num _ _, .inf neg => !neg
  | .inf neg, .num _ _ => neg
  | .inf n1, .inf n2 => n1 && !n2

/-- `==` on Python floats (NaN is unequal to everything, itself included). -/
def PyFloat.eqB : PyFloat → PyFloat → Bool
  | .nan, _ => false
  | _, .nan => false
  | .num m1 e1, .num m2 e2 => m1 * (10 : Int) ^ e2 == m2 * (10 : Int) ^ e1
  | .inf n1, .inf n2 => n1 == n2
  | _, _ => false

/-- `<=` on Python floats. -/
def PyFloat.leB (a b : PyFloat) : Bool := a.ltB b || a.eqB b

/-- Python's lexicographic string `<`, by code point, on character lists. -/
def charListLt : List Char → List Char → Bool
  | [], [] => false
  | [], _ :: _ => true
  | _ :: _, [] => false
  | a :: as, b :: bs =>
    a.toNat < b.toNat || (a = b && charListLt as bs)

/-- Lexicographic `<` on datetimes (CPython compares the components). -/
def dtLtB (d e : Datetime) : Bool :=
  if d.year ≠ e.year then d.year < e.year
  else if d.month ≠ e.month then d.month < e.month
  else if d.day ≠ e.day then d.day < e.day
  else if d.hour ≠ e.hour then d.hour < e.hour
  else if d.minute ≠ e.minute then d.minute < e.minute
  else if d.second ≠ e.second then d.second < e.second
  else d.microsecond < e.microsecond

/-- Lexicographic `<=` on datetimes. -/
def dtLeB (d e : Datetime) : Bool := dtLtB d e || d == e

/-- Python `==` on modelled values: numeric cross-type equality
(`True == 1`, `1 == 1.0`), structural equality on strings and datetimes,
`None == None`.  Mismatched types compare unequal without error.  CPython
compares two `UFWLogEntry` objects by identity; object identity is outside
this value model, so that (unused) case is mapped to `false`. -/
def pyEq (a b : PyVal) : Bool :=
  match a.asNum?, b.asNum? with
  | some p, some q => p.eqB q
  | _, _ =>
    match a, b with
    | .prim (.pstr s), .prim (.pstr t) => s == t
    | .prim (.pdt d), .prim (.pdt e) => d == e
    | .prim .pnone, .prim .pnone => true
    | _, _ => false

/-- Python `<`: numeric cross-type order, lexicographic string order,
component order on datetimes; every other pairing raises `TypeError`. -/
def pyLt (a b : PyVal) : Except PyErr Bool :=
  match a.asNum?, b.asNum? with
  | some p, some q => .ok (p.ltB q)
  | _, _ =>
    match a, b with
    | .prim (.pstr s), .prim (.pstr t) => .ok (charListLt s.data t.data)
    | .prim (.pdt d), .prim (.pdt e) => .ok (dtLtB d e)
    | _, _ => .error (.typeError "unorderable types")

/-- Python `<=`. -/
def pyLe (a b : PyVal) : Except PyErr Bool :=
  match a.asNum?, b.asNum? with
  | some p, some q => .ok (p.leB q)
  | _, _ =>
    match a, b with
    | .prim (.pstr s), .prim (.pstr t) => .ok (charListLt s.data t.data || s == t)
    | .prim (.pdt d), .prim (.pdt e) => .ok (dtLeB d e)
    | _, _ => .error (.typeError "unorderable types")

/-- Python `>` (for the builtin types modelled here, `a > b` iff `b < a`). -/
def pyGt (a b : PyVal) : Except PyErr Bool := pyLt b a

/-- Python `>=`. -/
def pyGe (a b : PyVal) : Except PyErr Bool := pyLe b a

/-! ### String helpers (Python `str` methods used by the source) -/

/-- The ASCII whitespace characters recognised by `str.strip` / `float`. -/
def pySpace (c : Char) : Bool :=
  c = ' ' || c = '\t' || c = '\n' || c = '\r' || c = '\x0b' || c = '\x0c'

/-- Python `str.lstrip()` (no argument: strip leading whitespace). -/
def pyLstrip (s : String) : String := String.mk (s.data.dropWhile pySpace)

/-- Python `str.strip()`. -/
def pyStrip (s : String) : String :=
  String.mk (((s.data.dropWhile pySpace).reverse.dropWhile pySpace).reverse)

/-- Python `s[1:-1]` on a string (drop the first and the last character;
shorter strings yield `""`). -/
def strSlice1m1 (s : String) : String := String.mk ((s.data.drop 1).dropLast)

/-- Python `s[:-1]` on a string. -/
def strDropLastChar (s : String) : String := String.mk s.data.dropLast

/-- `str.upper()` (sufficient for the ASCII attribute names it is applied to). -/
def pyUpper (s : String) : String := String.mk (s.data.map Char.toUpper)

/-- Worker for `pySplitOn`: scan left to right for non-overlapping occurrences
of the (non-empty) separator.  `fuel` bounds the recursion; every call
consumes at least one character, so `length + 1` fuel never runs out. -/
def splitOnGo (sep : List Char) : Nat → List Char → List Char → List (List Char)
  | 0, acc, rest => [acc.reverse ++ rest]
  | _ + 1, acc, [] => [acc.reverse]
  | n + 1, acc, c :: rest =>
    if sep.isPrefixOf (c :: rest) then
      acc.reverse :: splitOnGo sep n [] ((c :: rest).drop sep.length)
    else
      splitOnGo sep n (c :: acc) rest

/-- Python `s.split(sep)` for a non-empty separator (keeps empty fragments;
`"".split(sep) == ['']`). -/
def pySplitOn (s sep : String) : List String :=
  (splitOnGo sep.data (s.data.length + 1) [] s.data).map String.mk

/-! ### `float(str)` and `int(str)`

CPython accepts an optionally signed decimal literal (digits, optional `.`,
optional exponent) or `inf` / `infinity` / `nan` case-insensitively, with
surrounding whitespace, where every underscore must sit between two digits
(`_Py_string_to_number_with_underscores`). -/

/-- After the first character, every `_` must be flanked by digits. -/
def underscoresOkGo : Char → List Char → Bool
  | _, [] => true
  | prev, c :: rest =>
    (if c = '_' then
       prev.isDigit && (match rest with | d :: _ => d.isDigit | [] => false)
     else true)
    && underscoresOkGo c rest

/-- Every `_` in the character list is directly between two digits. -/
def underscoresOk : List Char → Bool
  | [] => true
  | c :: rest => (c != '_') && underscoresOkGo c rest

/-- Numeric value of a digit run. -/
def digitsToNat (ds : List Char) : Nat :=
  ds.foldl (fun a c => a * 10 + (c.toNat - 48)) 0

/-- Strip one optional sign; returns (is-negative, rest). -/
def takeSign : List Char → Bool × List Char
  | '+' :: r => (false, r)
  | '-' :: r => (true, r)
  | r => (false, r)

/-- Parse `digits [. digits]` (at least one digit overall) and return its
exact value as a decimal mantissa/scale pair with the remaining characters:
the value is `mant / 10 ^ scale`. -/
def parseMantissa (cs : List Char) : Option (Nat × Nat × List Char) :=
  let ip := cs.takeWhile Char.isDigit
  let r1 := cs.dropWhile Char.isDigit
  match r1 with
  | '.' :: r2 =>
    let fp := r2.takeWhile Char.isDigit
    let r3 := r2.dropWhile Char.isDigit
    if ip.isEmpty && fp.isEmpty then Option.none
    else some (digitsToNat ip * 10 ^ fp.length + digitsToNat fp, fp.length, r3)
  | _ => if ip.isEmpty then Option.none else some (digitsToNat ip, 0, r1)

/-- `float(s)` for a Python string: `some` value on success, `none` where
CPython raises `ValueError`. -/
def pyFloatParse (s : String) : Option PyFloat :=
  let cs0 := (pyStrip s).data
  if ¬ underscoresOk cs0 then Option.none else
  let cs1 := cs0.filter (fun c => c != '_')
  let sgn := takeSign cs1
  let neg := sgn.1
  let cs := sgn.2
  let low := String.mk (cs.map Char.toLower)
  if low = "inf" ∨ low = "infinity" then some (.inf neg)
  else if low = "nan" then some .nan
  else
    match parseMantissa cs with
    | Option.none => Option.none
    | some (m0, sc, r1) =>
      let sm : Int := if neg then -(m0 : Int) else (m0 : Int)
      match r1 with
      | [] => some (.num sm sc)
      | e :: r2 =>
        if e = 'e' ∨ e = 'E' then
          let esgn := takeSign r2
          let ds := esgn.2.takeWhile Char.isDigit
          let r4 := esgn.2.dropWhile Char.isDigit
          if ds.isEmpty ∨ ¬ r4.isEmpty then Option.none
          else if esgn.1 then some (.num sm (sc + digitsToNat ds))
          else some (.num (sm * (10 : Int) ^ digitsToNat ds) sc)
        else Option.none

/-- `int(s)` for a Python string (base 10): `some` value on success, `none`
where CPython raises `ValueError`. -/
def pyIntParse (s : String) : Option Int :=
  let cs0 := (pyStrip s).data
  if ¬ underscoresOk cs0 then Option.none else
  let cs1 := cs0.filter (fun c => c != '_')
  let sgn := takeSign cs1
  if cs1.isEmpty ∨ sgn.2.isEmpty ∨ ¬ sgn.2.all Char.isDigit then Option.none
  else some (if sgn.1 then -(digitsToNat sgn.2 : Int) else (digitsToNat sgn.2 : Int))

/-! ### `datetime.strptime(s, "%b %d %H:%M:%S")`

CPython's `_strptime` compiles the format to the case-insensitive regex
`(jan|feb|…)\s+(3[01]|[12]\d|0[1-9]|[1-9])\s+(2[0-3]|[0-1]\d|\d):([0-5]\d|\d):(6[0-1]|[0-5]\d|\d)`,
matches it at the start of the string, rejects unconverted trailing data, and
then builds `datetime(1900, m, d, H, M, S)`, which re-validates the day
against the (non-leap) default year 1900 and requires `S ≤ 59`.
The functions below implement exactly that: two-digit alternatives are
preferred and a failing continuation backtracks to the one-digit alternative,
mirroring the regex's ordered alternation. -/

/-- Month abbreviation (lowercased) to month number. -/
def monthNum (s : String) : Option Nat :=
  match s with
  | "jan" => some 1 | "feb" => some 2 | "mar" => some 3 | "apr" => some 4
  | "may" => some 5 | "jun" => some 6 | "jul" => some 7 | "aug" => some 8
  | "sep" => some 9 | "oct" => some 10 | "nov" => some 11 | "dec" => some 12
  | _ => Option.none

/-- Match a `%b` month abbreviation case-insensitively at the head. -/
def takeMonth : List Char → Option (Nat × List Char)
  | c1 :: c2 :: c3 :: rest =>
    match monthNum (String.mk [c1.toLower, c2.toLower, c3.toLower]) with
    | some m => some (m, rest)
    | Option.none => Option.none
  | _ => Option.none

/-- Match `\s+` (at least one whitespace character; greedily consume the run —
exact here because the following pattern element always requires a digit). -/
def wsPlus : List Char → Option (List Char)
  | c :: rest => if pySpace c then some (rest.dropWhile pySpace) else Option.none
  | [] => Option.none

/-- Match a literal character. -/
def litChar (c : Char) : List Char → Option (List Char)
  | c' :: rest => if c' = c then some rest else Option.none
  | [] => Option.none

/-- Value of a digit character, if it is one. -/
def digitVal (c : Char) : Option Nat :=
  if c.isDigit then some (c.toNat - 48) else Option.none

/-- Ordered-alternation numeric field of the strptime regex: first try the
two-digit alternatives (which for each field form the contiguous value range
`[lo2, hi2]`), backtracking into the trailing one-digit alternative
(`\d`, or `[1-9]` when `allowZero1 = false`) if the continuation fails. -/
def parse2or1 (lo2 hi2 : Nat) (allowZero1 : Bool)
    (k : Nat → List Char → Option Datetime) : List Char → Option Datetime
  | [] => Option.none
  | [c1] =>
    match digitVal c1 with
    | some d1 => if allowZero1 || d1 != 0 then k d1 [] else Option.none
    | Option.none => Option.none
  | c1 :: c2 :: rest =>
    match digitVal c1 with
    | Option.none => Option.none
    | some d1 =>
      (match digitVal c2 with
       | some d2 =>
         let v := d1 * 10 + d2
         if lo2 ≤ v ∧ v ≤ hi2 then k v rest else Option.none
       | Option.none => Option.none)
      <|> (if allowZero1 || d1 != 0 then k d1 (c2 :: rest) else Option.none)

/-- Days per month in the given year (Gregorian rules, as `datetime`). -/
def daysInMonth (year month : Nat) : Nat :=
  if month = 2 then
    (if year % 4 = 0 ∧ (year % 100 ≠ 0 ∨ year % 400 = 0) then 29 else 28)
  else if month = 4 ∨ month = 6 ∨ month = 9 ∨ month = 11 then 30 else 31

/-- `datetime.strptime(s, "%b %d %H:%M:%S")`: `some` datetime (year 1900) on
success, `none` where CPython raises `ValueError` (no regex match,
unconverted trailing data, day out of range for the month in 1900, or a
leap-second value matched by `%S`). -/
def tsParse (s : String) : Option Datetime :=
  match takeMonth s.data with
  | Option.none => Option.none
  | some (m, r1) =>
    match wsPlus r1 with
    | Option.none => Option.none
    | some r2 =>
      parse2or1 1 31 false (fun day r3 =>
        match wsPlus r3 with
        | Option.none => Option.none
        | some r4 =>
          parse2or1 0 23 true (fun hh r5 =>
            match litChar ':' r5 with
            | Option.none => Option.none
            | some r6 =>
              parse2or1 0 59 true (fun mm r7 =>
                match litChar ':' r7 with
                | Option.none => Option.none
                | some r8 =>
                  parse2or1 0 61 true (fun ss r9 =>
                    if r9 = [] ∧ ss ≤ 59 ∧ day ≤ daysInMonth 1900 m then
                      some ⟨1900, m, day, hh, mm, ss, 0⟩
                    else Option.none) r8) r6) r4) r2

/-! ### `UFWLogEntry.from_str` (src/ufw/ufw.py lines 83–104) -/

/-- Lines 87–88: if the literal `"[ "` occurs, strip leading whitespace from
every fragment after splitting on `"["` and rejoin with `"["`. -/
def normalizeLine (s : String) : String :=
  if (pySplitOn s "[ ").length ≥ 2 then
    "[".intercalate ((pySplitOn s "[").map pyLstrip)
  else s

/-- Line 89: `data = data.split(' ')[:-1]` (split on single spaces, keeping
empty fragments, then drop the final token). -/
def lineTokens (s : String) : List String :=
  (pySplitOn (normalizeLine s) " ").dropLast

/-- `list[i]` for a non-negative index known to be in the caller's hands:
Python raises `IndexError` when out of range.  (Only used with literal
non-negative indices 5 and 7, so the negative-index case is not needed.) -/
def listGetExact (l : List String) (i : Nat) : Except PyErr String :=
  match l.get? i with
  | some x => .ok x
  | Option.none => .error .indexError

/-- A `dict` with `str` keys, insertion-ordered with overwriting assignment. -/
abbrev Kwargs := List (String × PyPrim)

/-- `d[k] = v` on a dict. -/
def dictSet (d : Kwargs) (k : String) (v : PyPrim) : Kwargs :=
  if d.any (fun p => p.1 = k) then
    d.map (fun p => if p.1 = k then (k, v) else p)
  else d ++ [(k, v)]

/-- `d.get(k)` on a dict. -/
def dictGet (d : Kwargs) (k : String) : Option PyPrim :=
  (d.find? (fun p => p.1 = k)).map Prod.snd

/-- `k in d` on a dict. -/
def dictHas (d : Kwargs) (k : String) : Bool := d.any (fun p => p.1 = k)

/-- Lines 98–99: build the key/value dict from the tokens `data[8:]`.
Each token containing `=` is split on every `=`; the comprehension's
two-element unpacking raises `ValueError` if that split has more than two
parts, and pairs with an empty key or value are dropped. -/
def buildKwargsGo : List String → Kwargs → Except PyErr Kwargs
  | [], acc => .ok acc
  | t :: rest, acc =>
    if (pySplitOn t "=").length ≥ 2 then
      match pySplitOn t "=" with
      | [k, v] =>
        buildKwargsGo rest (if k ≠ "" ∧ v ≠ "" then dictSet acc k (.pstr v) else acc)
      | _ => .error (.valueError "too many values to unpack (expected 2)")
    else buildKwargsGo rest acc

/-- The dict comprehension of lines 98–99. -/
def buildKwargs (toks : List String) : Except PyErr Kwargs :=
  buildKwargsGo toks []

/-- The `SPT` / `DPT` coercion of `__init__` (lines 75–76):
`SPT if not isinstance(SPT, str) else int(SPT)`; absent means the
default `None`. -/
def portCoerce : Option PyPrim → Except PyErr PyPrim
  | Option.none => .ok .pnone
  | some (.pstr s) =>
    match pyIntParse s with
    | some n => .ok (.pint n)
    | Option.none => .error (.valueError "invalid literal for int() with base 10")
  | some v => .ok v

/-- `UFWLogEntry.__init__` as called by `from_str` with explicit keyword
arguments `event_datetime`, `hostname`, `uptime`, `event` plus `**kwargs`.
A kwargs key repeating one of the four explicit keywords raises `TypeError`;
keys matching no parameter are absorbed by `**kwargs` and ignored. -/
def mkEntry (event_datetime : Datetime) (hostname : String) (uptime : PyFloat)
    (event : PyPrim) (kw : Kwargs) : Except PyErr UFWLogEntry :=
  if dictHas kw "event_datetime" ∨ dictHas kw "hostname" ∨
     dictHas kw "uptime" ∨ dictHas kw "event" then
    .error (.typeError "got multiple values for keyword argument")
  else do
    let spt ← portCoerce (dictGet kw "SPT")
    let dpt ← portCoerce (dictGet kw "DPT")
    .ok { event_datetime, hostname, uptime, event
          IN := (dictGet kw "IN").getD .pnone
          OUT := (dictGet kw "OUT").getD .pnone
          MAC := (dictGet kw "MAC").getD .pnone
          SRC := (dictGet kw "SRC").getD .pnone
          DST := (dictGet kw "DST").getD .pnone
          LEN := (dictGet kw "LEN").getD .pnone
          TC := (dictGet kw "TC").getD .pnone
          TOS := (dictGet kw "TOS").getD .pnone
          PERC := (dictGet kw "PERC").getD .pnone
          TTL := (dictGet kw "TTL").getD .pnone
          ID := (dictGet kw "ID").getD .pnone
          PROTO := (dictGet kw "PROTO").getD .pnone
          SPT := spt
          DPT := dpt
          WINDOW := (dictGet kw "WINDOW").getD .pnone
          RES := (dictGet kw "RES").getD .pnone
          SYN_URGP := (dictGet kw "SYN_URGP").getD .pnone
          ACK := (dictGet kw "ACK").getD (.pbool false)
          PSH := (dictGet kw "PSH").getD (.pbool false) }

/-- `UFWLogEntry.from_str` (lines 83–104).  The debug `print('pause!')` on an
empty stripped uptime (lines 94–95) has no effect on the result; the
subsequent `float('')` then raises `ValueError`. -/
def UFWLogEntry.from_str (line : String) : Except PyErr UFWLogEntry := do
  let data := lineTokens line
  let event_datetime ← match tsParse (" ".intercalate (data.take 3)) with
    | some d => Except.ok d
    | Option.none => Except.error (.valueError "time data does not match format")
  let hostname := " ".intercalate ((data.drop 3).take 2)
  let t5 ← listGetExact data 5
  let uptime ← match pyFloatParse (strSlice1m1 t5) with
    | some f => Except.ok f
    | Option.none => Except.error (.valueError "could not convert string to float")
  let t7 ← listGetExact data 7
  let event := strDropLastChar t7
  let kw ← buildKwargs (data.drop 8)
  let kw := dictSet kw "ACK" (.pbool (decide ("ACK" ∈ data.drop 8)))
  let kw := dictSet kw "PSH" (.pbool (decide ("PSH" ∈ data.drop 8)))
  mkEntry event_datetime hostname uptime (.pstr event) kw

/-! ### `FilterFunction` and `LogFilter` (src/ufw/filter_tools.py) -/

/-- A Python callable taking one argument, as used for predicates. -/
abbrev PyCallable := PyVal → Except PyErr PyVal

/-- `FilterFunction`: wrapper around a callable (filter_tools.py lines 14–52). -/
structure FilterFunction where
  func : PyCallable

/-- `__call__`. -/
def FilterFunction.call (P : FilterFunction) (v : PyVal) : Except PyErr PyVal :=
  P.func v

/-- `__and__`: `lambda value: self.func(value) and func(value)` — Python `and`
returns the first operand when it is falsy, otherwise the second. -/
def FilterFunction.andOp (P : FilterFunction) (g : PyCallable) : FilterFunction :=
  ⟨fun v => do
    let a ← P.func v
    if pyTruthy a then g v else pure a⟩

/-- `__or__`: `lambda value: self.func(value) or func(value)`. -/
def FilterFunction.orOp (P : FilterFunction) (g : PyCallable) : FilterFunction :=
  ⟨fun v => do
    let a ← P.func v
    if pyTruthy a then pure a else g v⟩

/-- `__add__`: same body as `__or__`. -/
def FilterFunction.addOp (P : FilterFunction) (g : PyCallable) : FilterFunction :=
  ⟨fun v => do
    let a ← P.func v
    if pyTruthy a then pure a else g v⟩

/-- `__sub__`: `lambda value: self.func(value) and not func(value)`. -/
def FilterFunction.subOp (P : FilterFunction) (g : PyCallable) : FilterFunction :=
  ⟨fun v => do
    let a ← P.func v
    if pyTruthy a then do
      let b ← g v
      pure (.prim (.pbool (!pyTruthy b)))
    else pure a⟩

/-- `LogFilter` instance state.  The single `__dict__` slot that matters is
`attr`; the outer `Option` is "has the attribute been assigned at all"
(`getattr(self, 'attr', False)` sees unset attributes), the inner
`Option String` is the Python value `None`-or-string bound to it. -/
structure LogFilter where
  attr : Option (Option String)
deriving DecidableEq, Repr

/-- `getattr(obj, name)` for the modelled values: log-entry attribute lookup;
anything else (or an unknown name) raises `AttributeError`. -/
def pyGetattr (x : PyVal) (name : String) : Except PyErr PyVal :=
  match x with
  | .entry e =>
    match name with
    | "event_datetime" => .ok (.prim (.pdt e.event_datetime))
    | "hostname" => .ok (.prim (.pstr e.hostname))
    | "uptime" => .ok (.prim (.pfloat e.uptime))
    | "event" => .ok (.prim e.event)
    | "IN" => .ok (.prim e.IN)
    | "OUT" => .ok (.prim e.OUT)
    | "MAC" => .ok (.prim e.MAC)
    | "SRC" => .ok (.prim e.SRC)
    | "DST" => .ok (.prim e.DST)
    | "LEN" => .ok (.prim e.LEN)
    | "TC" => .ok (.prim e.TC)
    | "TOS" => .ok (.prim e.TOS)
    | "PERC" => .ok (.prim e.PERC)
    | "TTL" => .ok (.prim e.TTL)
    | "ID" => .ok (.prim e.ID)
    | "PROTO" => .ok (.prim e.PROTO)
    | "SPT" => .ok (.prim e.SPT)
    | "DPT" => .ok (.prim e.DPT)
    | "WINDOW" => .ok (.prim e.WINDOW)
    | "RES" => .ok (.prim e.RES)
    | "SYN_URGP" => .ok (.prim e.SYN_URGP)
    | "ACK" => .ok (.prim e.ACK)
    | "PSH" => .ok (.prim e.PSH)
    | _ => .error (.attributeError name)
  | _ => .error (.attributeError name)

/-- `LogFilter.__extract` (lines 59–61): the event itself when `attr` is
`None`, otherwise `getattr(event, self.attr)`.  Reading an unset `attr`
slot would itself raise `AttributeError` (unreachable after `__init__`). -/
def LogFilter.extract (lf : LogFilter) (event : PyVal) : Except PyErr PyVal :=
  match lf.attr with
  | Option.none => .error (.attributeError "attr")
  | some Option.none => .ok event
  | some (some a) => pyGetattr event a

/-- `__eq__` (lines 63–64). -/
def LogFilter.eqOp (lf : LogFilter) (value : PyVal) : FilterFunction :=
  ⟨fun event => do
    let e ← lf.extract event
    pure (.prim (.pbool (pyEq e value)))⟩

/-- `__ne__` (lines 66–67). -/
def LogFilter.neOp (lf : LogFilter) (value : PyVal) : FilterFunction :=
  ⟨fun event => do
    let e ← lf.extract event
    pure (.prim (.pbool (!pyEq e value)))⟩

/-- `__lt__` (lines 69–70): note the body computes `extract(event) > value`. -/
def LogFilter.ltOp (lf : LogFilter) (value : PyVal) : FilterFunction :=
  ⟨fun event => do
    let e ← lf.extract event
    let b ← pyGt e value
    pure (.prim (.pbool b))⟩

/-- `__gt__` (lines 72–73): note the body computes `extract(event) < value`. -/
def LogFilter.gtOp (lf : LogFilter) (value : PyVal) : FilterFunction :=
  ⟨fun event => do
    let e ← lf.extract event
    let b ← pyLt e value
    pure (.prim (.pbool b))⟩

/-- `__le__` (lines 75–76): note the body computes `extract(event) >= value`. -/
def LogFilter.leOp (lf : LogFilter) (value : PyVal) : FilterFunction :=
  ⟨fun event => do
    let e ← lf.extract event
    let b ← pyGe e value
    pure (.prim (.pbool b))⟩

/-- `__ge__` (lines 78–79): note the body computes `extract(event) <= value`. -/
def LogFilter.geOp (lf : LogFilter) (value : PyVal) : FilterFunction :=
  ⟨fun event => do
    let e ← lf.extract event
    let b ← pyLe e value
    pure (.prim (.pbool b))⟩

/-- `re.findall(pattern, target)` for a fixed pattern whose match semantics on
strings is the abstract function `m` (returning the list of matched
substrings): CPython raises `TypeError` when the target is not a string. -/
def reFindall (m : String → List String) (target : PyVal) :
    Except PyErr (List String) :=
  match target with
  | .prim (.pstr s) => .ok (m s)
  | _ => .error (.typeError "expected string or bytes-like object")

/-- `__mod__` (lines 81–83): `any(re.findall(value, self.__extract(event)))` —
`any` over a list of matched substrings is true iff some match is a
non-empty string. -/
def LogFilter.modOp (lf : LogFilter) (m : String → List String) : FilterFunction :=
  ⟨fun event => do
    let e ← lf.extract event
    let l ← reFindall m e
    pure (.prim (.pbool (l.any (fun r => r != ""))))⟩

/-- `__setattr__` (lines 85–89): if `getattr(self, 'attr', False)` is truthy
the assignment raises `AttributeError(f'{self.attr.upper()} is immutable!')`;
otherwise `self.__dict__[name] = value`.  Only the `attr` slot is tracked;
every attempted value here is a string-or-`None` as in the source. -/
def LogFilter.setattr (lf : LogFilter) (name : String) (v : Option String) :
    Except PyErr LogFilter :=
  match lf.attr with
  | some (some s) =>
    if s ≠ "" then .error (.attributeError (pyUpper s ++ " is immutable!"))
    else .ok (if name = "attr" then ⟨some v⟩ else lf)
  | _ => .ok (if name = "attr" then ⟨some v⟩ else lf)

/-- `LogFilter.__init__` (lines 56–57): `self.attr = attr` runs through
`__setattr__` on a fresh instance. -/
def LogFilter.make (a : Option String) : Except PyErr LogFilter :=
  LogFilter.setattr ⟨Option.none⟩ "attr" a

/-! ### `UFWLogFile` (src/ufw/ufw.py, class `UFWLogFile`) -/

/-- `all(fn(event) for fn in search_fns)`: short-circuiting, propagating the
first exception a predicate raises. -/
def pyAllCall : List PyCallable → PyVal → Except PyErr Bool
  | [], _ => .ok true
  | f :: fs, v => do
    let r ← f v
    if pyTruthy r then pyAllCall fs v else .ok false

/-- `UFWLogFile.search` (lines 123–125) over the held events. -/
def UFWLogFile.search (events : List UFWLogEntry) (fns : List PyCallable) :
    Except PyErr (List UFWLogEntry) :=
  match events with
  | [] => .ok []
  | e :: rest => do
    let keep ← pyAllCall fns (.entry e)
    let tail ← UFWLogFile.search rest fns
    pure (if keep then e :: tail else tail)

/-- File metadata as read by `os.path`: the source takes `getctime` (creation
/ inode-change time); the modification time is carried alongside so that
claims about it can be stated. -/
structure FileMeta where
  ctimeYear : Nat
  mtimeYear : Nat

/-- `datetime.replace(year)` (validates the day against the new year). -/
def Datetime.replaceYear (d : Datetime) (y : Nat) : Except PyErr Datetime :=
  if d.day ≤ daysInMonth y d.month then .ok { d with year := y }
  else .error (.valueError "day is out of range for month")

/-- First loop of `UFWLogFile.__init__` (lines 115–117): parse every line. -/
def parseLines : List String → Except PyErr (List UFWLogEntry)
  | [] => .ok []
  | l :: rest => do
    let e ← UFWLogEntry.from_str l
    let tail ← parseLines rest
    pure (e :: tail)

/-- Second loop of `UFWLogFile.__init__` (lines 118–121): replace every
event's year with the year of the file's `getctime`. -/
def fixYears (y : Nat) : List UFWLogEntry → Except PyErr (List UFWLogEntry)
  | [] => .ok []
  | e :: rest => do
    let dt ← e.event_datetime.replaceYear y
    let tail ← fixYears y rest
    pure ({ e with event_datetime := dt } :: tail)

/-- `UFWLogFile.__init__` (lines 112–121) over the file's lines and metadata. -/
def UFWLogFile.load (lines : List String) (meta : FileMeta) :
    Except PyErr (List UFWLogEntry) := do
  let evs ← parseLines lines
  fixYears meta.ctimeYear evs

/-- A selector as accepted by `UFWLogFile.__getitem__`: an `int`, a `slice`,
a callable, a `list` (of further selectors), a `str`, or any other
non-iterable object (e.g. a float), which matches none of the branches. -/
inductive Sel where
  | idx (i : Int)
  | slice (start stop step : Option Int)
  | fn (f : PyCallable)
  | listSel (elems : List Sel)
  | strSel (s : String)
  | otherNonIter

/-- `isinstance(index, Callable)`. -/
def Sel.isCallable : Sel → Bool
  | .fn _ => true
  | _ => false

/-- The callable a `Sel.fn` carries. -/
def Sel.asCallable : Sel → Option PyCallable
  | .fn f => some f
  | _ => Option.none

/-- `isinstance(indexes, Iterable)`: lists and strings are iterable, ints,
slices, callables and the modelled "other" objects are not. -/
def Sel.isIterable : Sel → Bool
  | .listSel _ => true
  | .strSel _ => true
  | _ => false

/-- Iterating a selector used as the outer `indexes`: a list yields its
elements, a string yields its one-character strings. -/
def Sel.iterElems : Sel → List Sel
  | .listSel es => es
  | .strSel s => s.data.map (fun c => Sel.strSel (String.mk [c]))
  | s => [s]

/-- `list[i]` with Python's negative-index semantics. -/
def pyListGet (l : List UFWLogEntry) (i : Int) : Except PyErr UFWLogEntry :=
  let n : Int := l.length
  let j := if i < 0 then i + n else i
  if 0 ≤ j ∧ j < n then
    match l.get? j.toNat with
    | some x => .ok x
    | Option.none => .error .indexError
  else .error .indexError

/-- `list[start:stop:step]` following CPython's `PySlice_AdjustIndices`:
clamp the endpoints, then take every `step`-th element. -/
def pySliceList (l : List UFWLogEntry) (start stop step : Option Int) :
    Except PyErr (List UFWLogEntry) :=
  let n : Int := l.length
  let st := step.getD 1
  if st = 0 then .error (.valueError "slice step cannot be zero")
  else
    let lower : Int := if st > 0 then 0 else -1
    let upper : Int := if st > 0 then n else n - 1
    let b := match start with
      | Option.none => if st > 0 then 0 else n - 1
      | some v => if v < 0 then max (v + n) lower else min v upper
    let e := match stop with
      | Option.none => if st > 0 then n else -1
      | some v => if v < 0 then max (v + n) lower else min v upper
    let count : Nat :=
      if st > 0 then (if e > b then ((e - b - 1) / st).toNat + 1 else 0)
      else (if e < b then ((b - e - 1) / (-st)).toNat + 1 else 0)
    .ok ((List.range count).filterMap (fun k => l.get? (b + k * st).toNat))

/-- The body of the `for index in indexes` loop of `__getitem__`
(lines 134–144): the four `isinstance` branches.  At most one branch matches
any selector; a selector matching none contributes nothing. -/
def applySel (events : List UFWLogEntry) : Sel → Except PyErr (List UFWLogEntry)
  | .idx i => do
    let x ← pyListGet events i
    pure [x]
  | .slice a b c => pySliceList events a b c
  | .fn f => UFWLogFile.search events [f]
  | .listSel es =>
    if es.all Sel.isCallable then UFWLogFile.search events (es.filterMap Sel.asCallable)
    else .ok []
  | .strSel _ => .ok []
  | .otherNonIter => .ok []

/-- The accumulation `out += …` over the selector sequence. -/
def getitemGo (events : List UFWLogEntry) : List Sel → Except PyErr (List UFWLogEntry)
  | [] => .ok []
  | s :: rest => do
    let r ← applySel events s
    let tail ← getitemGo events rest
    pure (r ++ tail)

/-- `UFWLogFile.__getitem__` (lines 131–145): wrap a non-iterable argument in
a one-element list, then run every selector and concatenate. -/
def UFWLogFile.getitem (events : List UFWLogEntry) (indexes : Sel) :
    Except PyErr (List UFWLogEntry) :=
  getitemGo events (if indexes.isIterable then indexes.iterElems else [indexes])

/-! ## Claims

Concrete inputs used by several claims. -/

/-- The end-to-end scenario line of the spec (§8, claim C1). -/
def c1line : String :=
  "Sep 21 10:15:32 myhost kernel: [ 123.45] [UFW BLOCK] IN=eth0 OUT= MAC=aa:bb SRC=1.2.3.4 DST=5.6.7.8 LEN=60 TTL=64 PROTO=TCP SPT=12345 DPT=25565 ACK"

/-- What `UFWLogEntry.from_str` actually produces for `c1line`: the final
token `ACK` is removed by `data.split(' ')[:-1]` (so `ACK` stays `False`) and
the event is token 7 (`"BLOCK]"`) with its last character stripped. -/
def c1entry : UFWLogEntry where
  event_datetime := ⟨1900, 9, 21, 10, 15, 32, 0⟩
  hostname := "myhost kernel:"
  uptime := .num 12345 2
  event := .pstr "BLOCK"
  IN := .pstr "eth0"
  MAC := .pstr "aa:bb"
  SRC := .pstr "1.2.3.4"
  DST := .pstr "5.6.7.8"
  LEN := .pstr "60"
  TTL := .pstr "64"
  PROTO := .pstr "TCP"
  SPT := .pint 12345
  DPT := .pint 25565

/-- C1 (counterexample): parsing the scenario line succeeds, but the parsed
record has `ACK = False` — the trailing bare `ACK` token is discarded by
`data.split(' ')[:-1]` before the flag scan — and its event tag is `"BLOCK"`
(token 7 minus its last character), not `"[UFW BLOCK]"`.  This refutes the
claim's `ack = true` and `event = "[UFW BLOCK]"`. -/
theorem c1_parse_scenario_counterexample :
    UFWLogEntry.from_str c1line = .ok c1entry ∧
    c1entry.ACK = .pbool false ∧
    c1entry.event = .pstr "BLOCK" := by
  refine ⟨?_, rfl, rfl⟩
  rfl

/-- C1 (amended): parsing the scenario line with `UFWLogEntry.from_str`
succeeds and yields a record whose `DPT` equals the integer 25565, whose
`ACK` flag is `False` (the bare `ACK` token is the line's final token and is
dropped before the flag scan), whose `PSH` flag is `False`, whose `IN` equals
`"eth0"`, and whose event tag equals `"BLOCK"`. -/
theorem c1_parse_scenario :
    UFWLogEntry.from_str c1line = .ok c1entry ∧
    c1entry.DPT = .pint 25565 ∧
    c1entry.ACK = .pbool false ∧
    c1entry.PSH = .pbool false ∧
    c1entry.IN = .pstr "eth0" ∧
    c1entry.event = .pstr "BLOCK" := by
  refine ⟨?_, rfl, rfl, rfl, rfl, rfl⟩
  rfl

/-- C2: for every `LogFilter`, literal and input whose field extraction
succeeds, the predicate built by `__gt__` evaluates the *less-than*
comparison of the extracted value against the literal, `__lt__` evaluates
*greater-than*, `__le__` evaluates *greater-or-equal* and `__ge__` evaluates
*less-or-equal* — the four ordering operators are swapped relative to their
names, exactly as the source's operator bodies are written; instantiated on
integer fields this yields the stated boolean comparisons. -/
theorem c2_ordering_operators_swapped (lf : LogFilter) (v x e : PyVal)
    (h : lf.extract x = .ok e) :
    ((lf.gtOp v).call x = (pyLt e v).map (fun b => PyVal.prim (.pbool b))) ∧
    ((lf.ltOp v).call x = (pyGt e v).map (fun b => PyVal.prim (.pbool b))) ∧
    ((lf.leOp v).call x = (pyGe e v).map (fun b => PyVal.prim (.pbool b))) ∧
    ((lf.geOp v).call x = (pyLe e v).map (fun b => PyVal.prim (.pbool b))) ∧
    (∀ m n : Int, e = .prim (.pint m) → v = .prim (.pint n) →
      (lf.gtOp v).call x = .ok (.prim (.pbool (decide (m < n)))) ∧
      (lf.ltOp v).call x = .ok (.prim (.pbool (decide (n < m)))) ∧
      (lf.leOp v).call x = .ok (.prim (.pbool (decide (n ≤ m)))) ∧
      (lf.geOp v).call x = .ok (.prim (.pbool (decide (m ≤ n))))) := by
  have hgt : (lf.gtOp v).call x = (pyLt e v).map (fun b => PyVal.prim (.pbool b)) := by
    cases hc : pyLt e v <;>
      simp [LogFilter.gtOp, FilterFunction.call, h, hc, Except.map, bind, Except.bind, pure,
            Except.pure]
  have hlt : (lf.ltOp v).call x = (pyGt e v).map (fun b => PyVal.prim (.pbool b)) := by
    cases hc : pyGt e v <;>
      simp [LogFilter.ltOp, FilterFunction.call, h, hc, Except.map, bind, Except.bind, pure,
            Except.pure]
  have hle : (lf.leOp v).call x = (pyGe e v).map (fun b => PyVal.prim (.pbool b)) := by
    cases hc : pyGe e v <;>
      simp [LogFilter.leOp, FilterFunction.call, h, hc, Except.map, bind, Except.bind, pure,
            Except.pure]
  have hge : (lf.geOp v).call x = (pyLe e v).map (fun b => PyVal.prim (.pbool b)) := by
    cases hc : pyLe e v <;>
      simp [LogFilter.geOp, FilterFunction.call, h, hc, Except.map, bind, Except.bind, pure,
            Except.pure]
  refine ⟨hgt, hlt, hle, hge, ?_⟩
  rintro m n rfl rfl
  have hltmn : pyLt (.prim (.pint m)) (.prim (.pint n)) = .ok (decide (m < n)) := by
    simp [pyLt, PyVal.asNum?, PyFloat.ltB]
  have hltnm : pyGt (.prim (.pint m)) (.prim (.pint n)) = .ok (decide (n < m)) := by
    simp [pyGt, pyLt, PyVal.asNum?, PyFloat.ltB]
  have hlenm : pyGe (.prim (.pint m)) (.prim (.pint n)) = .ok (decide (n ≤ m)) := by
    have : (decide (n < m) || (n == m)) = decide (n ≤ m) := by
      by_cases h1 : n < m
      · simp [h1, le_of_lt h1]
      · by_cases h2 : n = m
        · subst h2; simp
        · have h3 : ¬ n ≤ m := fun hle => h2 (le_antisymm hle (not_lt.mp h1))
          simp [beq_iff_eq, h1, h2, h3]
    simp [pyGe, pyLe, PyVal.asNum?, PyFloat.leB, PyFloat.ltB, PyFloat.eqB, ← this]
  have hlemn : pyLe (.prim (.pint m)) (.prim (.pint n)) = .ok (decide (m ≤ n)) := by
    have : (decide (m < n) || (m == n)) = decide (m ≤ n) := by
      by_cases h1 : m < n
      · simp [h1, le_of_lt h1]
      · by_cases h2 : m = n
        · subst h2; simp
        · have h3 : ¬ m ≤ n := fun hle => h2 (le_antisymm hle (not_lt.mp h1))
          simp [beq_iff_eq, h1, h2, h3]
    simp [pyLe, PyVal.asNum?, PyFloat.leB, PyFloat.ltB, PyFloat.eqB, ← this]
  exact ⟨by rw [hgt, hltmn]; rfl, by rw [hlt, hltnm]; rfl,
         by rw [hle, hlenm]; rfl, by rw [hge, hlemn]; rfl⟩

/-- C2 (witness): on the parsed scenario record, `DPT > 99999` — via the
swapped `__gt__` — evaluates `25565 < 99999`, i.e. `True`, and `DPT < 99999`
evaluates `99999 < 25565`, i.e. `False`. -/
theorem c2_ordering_operators_swapped_witness :
    ((LogFilter.mk (some (some "DPT"))).gtOp (.prim (.pint 99999))).call
        (.entry c1entry) = .ok (.prim (.pbool true)) ∧
    ((LogFilter.mk (some (some "DPT"))).ltOp (.prim (.pint 99999))).call
        (.entry c1entry) = .ok (.prim (.pbool false)) := by
  have h := c2_ordering_operators_swapped ⟨some (some "DPT")⟩ (.prim (.pint 99999))
    (.entry c1entry) (.prim (.pint 25565)) rfl
  have h5 := h.2.2.2.2 25565 99999 rfl rfl
  exact ⟨h5.1, h5.2.1⟩

/-- A predicate that accepts every value (used as a concrete test input). -/
def truePred : PyCallable := fun _ => .ok (.prim (.pbool true))

/-- C3 (counterexample): on a one-record collection and with the always-true
predicate playing both `pA` and `pB`, the indexing call `c[[pA, pB]]` returns
the record twice — the outer list is itself taken as the sequence of
selectors, so each predicate is searched separately and the results are
concatenated — whereas `search([pA, pB])` returns it once.  The two results
differ, refuting the claimed equivalence. -/
theorem c3_list_selector_counterexample :
    UFWLogFile.getitem [c1entry] (.listSel [.fn truePred, .fn truePred]) =
      .ok [c1entry, c1entry] ∧
    UFWLogFile.search [c1entry] [truePred, truePred] = .ok [c1entry] ∧
    ([c1entry, c1entry] : List UFWLogEntry) ≠ [c1entry] := by
  refine ⟨rfl, rfl, fun h => ?_⟩
  simpa using congrArg List.length h

/-- C3 (amended): passing the two-element list `[pA, pB]` directly as the
index argument makes the list itself the iterated selector sequence, so
`c[[pA, pB]]` equals `search([pA]) ++ search([pB])` (records satisfying `pA`,
then records satisfying `pB`, duplicates not removed).  The claimed
conjunctive behaviour belongs to the *nested* form `c[[[pA, pB]]]`, where the
inner list of callables is a single selector: that equals `search([pA, pB])`. -/
theorem c3_list_selector_semantics (events : List UFWLogEntry) (pA pB : PyCallable) :
    UFWLogFile.getitem events (.listSel [.fn pA, .fn pB]) =
      (do
        let a ← UFWLogFile.search events [pA]
        let b ← UFWLogFile.search events [pB]
        pure (a ++ b)) ∧
    UFWLogFile.getitem events (.listSel [.listSel [.fn pA, .fn pB]]) =
      UFWLogFile.search events [pA, pB] := by
  constructor
  · cases hA : UFWLogFile.search events [pA] <;> cases hB : UFWLogFile.search events [pB] <;>
      simp [UFWLogFile.getitem, Sel.isIterable, Sel.iterElems, getitemGo, applySel, hA, hB,
            bind, Except.bind, pure, Except.pure]
  · cases hAB : UFWLogFile.search events [pA, pB] <;>
      simp [UFWLogFile.getitem, Sel.isIterable, Sel.iterElems, getitemGo, applySel,
            Sel.isCallable, Sel.asCallable, hAB, bind, Except.bind, pure, Except.pure,
            List.filterMap, List.all]

/-- Successful `parseLines` parses the lines index-wise. -/
theorem parseLines_ok_get {lines : List String} {evs : List UFWLogEntry}
    (h : parseLines lines = .ok evs) :
    evs.length = lines.length ∧
    ∀ i line, lines.get? i = some line →
      ∃ e, UFWLogEntry.from_str line = .ok e ∧ evs.get? i = some e := by
  induction lines generalizing evs with
  | nil =>
    simp [parseLines] at h
    subst h
    exact ⟨rfl, fun i line hl => by simp at hl⟩
  | cons l rest ih =>
    simp only [parseLines, bind, Except.bind] at h
    cases hfe : UFWLogEntry.from_str l with
    | error _ => rw [hfe] at h; exact absurd h (by simp)
    | ok e =>
      rw [hfe] at h
      cases hpt : parseLines rest with
      | error _ => rw [hpt] at h; exact absurd h (by simp)
      | ok tail =>
        rw [hpt] at h
        simp only [pure, Except.pure, Except.ok.injEq] at h
        subst h
        obtain ⟨hlen, hget⟩ := ih hpt
        refine ⟨by simp [hlen], fun i line hl => ?_⟩
        cases i with
        | zero => simp at hl; subst hl; exact ⟨e, hfe, rfl⟩
        | succ j => exact hget j line (by simpa using hl)

/-- Successful `Datetime.replaceYear` replaces exactly the year. -/
theorem replaceYear_ok {d : Datetime} {y : Nat} {d2 : Datetime}
    (h : d.replaceYear y = .ok d2) : d2 = { d with year := y } := by
  by_cases hc : d.day ≤ daysInMonth y d.month
  · simpa [Datetime.replaceYear, hc, eq_comm] using h
  · simp [Datetime.replaceYear, hc] at h

/-- Successful `fixYears` rewrites the year of every entry index-wise. -/
theorem fixYears_ok_get {y : Nat} {evs evs2 : List UFWLogEntry}
    (h : fixYears y evs = .ok evs2) :
    evs2.length = evs.length ∧
    ∀ i e, evs.get? i = some e →
      evs2.get? i = some { e with event_datetime := { e.event_datetime with year := y } } := by
  induction evs generalizing evs2 with
  | nil =>
    simp [fixYears] at h
    subst h
    exact ⟨rfl, fun i e hl => by simp at hl⟩
  | cons e0 rest ih =>
    simp only [fixYears, bind, Except.bind] at h
    cases hre : e0.event_datetime.replaceYear y with
    | error _ => rw [hre] at h; exact absurd h (by simp)
    | ok dt =>
      rw [hre] at h
      cases hft : fixYears y rest with
      | error _ => rw [hft] at h; exact absurd h (by simp)
      | ok tail =>
        rw [hft] at h
        simp only [pure, Except.pure, Except.ok.injEq] at h
        subst h
        obtain ⟨hlen, hget⟩ := ih hft
        refine ⟨by simp [hlen], fun i e hl => ?_⟩
        cases i with
        | zero =>
          simp at hl
          subst hl
          simp [replaceYear_ok hre]
        | succ j => exact hget j e (by simpa using hl)

/-- The record `c1line` loads to when the file's `getctime` year is 2022. -/
def c4entry : UFWLogEntry :=
  { c1entry with event_datetime := ⟨2022, 9, 21, 10, 15, 32, 0⟩ }

/-- C4 (counterexample): loading the scenario line from a file whose
creation (`getctime`) year is 2022 and whose last-modification year is 2023
yields a record whose corrected year is 2022 — the source uses
`os.path.getctime`, not the file's last-modification time — which differs
from the last-modification year demanded by the claim. -/
theorem c4_year_correction_counterexample :
    UFWLogFile.load [c1line] ⟨2022, 2023⟩ = .ok [c4entry] ∧
    c4entry.event_datetime.year = 2022 ∧
    (FileMeta.mtimeYear ⟨2022, 2023⟩ = 2023) ∧
    (2022 : Nat) ≠ 2023 := by
  refine ⟨?_, rfl, rfl, by decide⟩
  rfl

/-- C4 (amended): for every successfully loaded file, every record's
corrected year equals the year of the file's *creation time*
(`os.path.getctime`), and the month, day and time-of-day components are
exactly those parsed from the raw line (only the year is replaced). -/
theorem c4_year_correction (lines : List String) (meta : FileMeta)
    (evs : List UFWLogEntry) (h : UFWLogFile.load lines meta = .ok evs) :
    (∀ e ∈ evs, e.event_datetime.year = meta.ctimeYear) ∧
    (∀ i line e0, lines.get? i = some line → UFWLogEntry.from_str line = .ok e0 →
      evs.get? i =
        some { e0 with event_datetime := { e0.event_datetime with year := meta.ctimeYear } }) := by
  simp only [UFWLogFile.load, bind, Except.bind] at h
  cases hpl : parseLines lines with
  | error _ => rw [hpl] at h; exact absurd h (by simp)
  | ok evs0 =>
    rw [hpl] at h
    obtain ⟨hlen0, hget0⟩ := parseLines_ok_get hpl
    obtain ⟨hlen, hget⟩ := fixYears_ok_get h
    constructor
    · intro e he
      obtain ⟨i, hi⟩ := List.get_of_mem he
      have hgi : evs.get? i = some e := by
        rw [List.get?_eq_get i.isLt]
        exact congrArg some hi
      have hlt : (i : Nat) < evs0.length := by
        have := i.isLt
        omega
      have h2 := hget i (evs0.get ⟨i, hlt⟩) (List.get?_eq_get hlt)
      rw [hgi] at h2
      have he' := Option.some.inj h2
      simp [he']
    · intro i line e0 hl hfs
      obtain ⟨e1, hfs1, hg1⟩ := hget0 i line hl
      rw [hfs] at hfs1
      have : e0 = e1 := Except.ok.inj hfs1
      subst this
      exact hget i e0 hg1

/-- C4 (witness): instantiating the amended year-correction theorem on the
one-line file `[c1line]` with creation year 2022: the loaded record is the
parsed record with only its year replaced, and its year is 2022. -/
theorem c4_year_correction_witness :
    ([c4entry] : List UFWLogEntry).get? 0 =
      some { c1entry with
             event_datetime := { c1entry.event_datetime with year := 2022 } } ∧
    c4entry.event_datetime.year = 2022 := by
  have h := c4_year_correction [c1line] ⟨2022, 2023⟩ [c4entry] (by rfl)
  exact ⟨h.2 0 c1line c1entry rfl (by rfl), h.1 c4entry (by simp)⟩

/-- A line whose uptime token (token 5) is `[]`: empty after stripping the
brackets. -/
def c5line : String := "Sep 21 10:15:32 myhost kernel: [] [UFW BLOCK] IN=eth0 X"

/-- C5 (counterexample): on a line with an empty bracketed uptime the parser
*fails* — after the leftover debug print, `float('')` raises `ValueError` —
rather than recovering with an uptime of `0.0` as the claim states. -/
theorem c5_empty_uptime_counterexample :
    UFWLogEntry.from_str c5line =
      .error (.valueError "could not convert string to float") := by
  rfl

/-- C5 (amended): for every line whose timestamp parses and whose token 5
exists but strips (`[1:-1]`) to the empty string, `from_str` does not
recover: it fails with the `ValueError` of converting `''` to a float (the
source merely prints a debug message first). -/
theorem c5_empty_uptime_fails (line : String) (t5 : String) (d : Datetime)
    (h3 : tsParse (" ".intercalate ((lineTokens line).take 3)) = some d)
    (h5 : (lineTokens line).get? 5 = some t5)
    (hemp : strSlice1m1 t5 = "") :
    UFWLogEntry.from_str line =
      .error (.valueError "could not convert string to float") := by
  have hfp : pyFloatParse "" = Option.none := rfl
  rw [List.get?_eq_getElem?] at h5
  simp [UFWLogEntry.from_str, bind, Except.bind, listGetExact, h3, h5, hemp, hfp]

/-- C5 (witness): the amended empty-uptime theorem applied to `c5line`. -/
theorem c5_empty_uptime_fails_witness :
    UFWLogEntry.from_str c5line =
      .error (.valueError "could not convert string to float") ∧
    strSlice1m1 "[]" = "" := by
  refine ⟨c5_empty_uptime_fails c5line "[]" ⟨1900, 9, 21, 10, 15, 32, 0⟩ ?_ ?_ ?_, rfl⟩
  · rfl
  · rfl
  · rfl

/-- The spec's `MalformedLineError` taxonomy: the grammar failures of
`from_str` surface as CPython `IndexError` (missing token) or `ValueError`
(bad timestamp, bad float) — never any other exception. -/
def MalformedLine (e : PyErr) : Prop :=
  e = .indexError ∨ ∃ msg, e = .valueError msg

/-- C6: a line with fewer tokens than the indexing steps require (fewer than
8 after the split-and-drop-last), or whose first three tokens fail the
`%b %d %H:%M:%S` grammar, or whose stripped uptime token is non-empty but not
float-parsable, makes `from_str` fail with a grammar error (the spec's
`MalformedLineError`: an `IndexError` or `ValueError`), never any other kind
of exception. -/
theorem c6_malformed_line_failures (line : String) :
    ((lineTokens line).length < 8 →
      ∃ e, UFWLogEntry.from_str line = .error e ∧ MalformedLine e) ∧
    (tsParse (" ".intercalate ((lineTokens line).take 3)) = Option.none →
      UFWLogEntry.from_str line =
        .error (.valueError "time data does not match format")) ∧
    (∀ t5 d, tsParse (" ".intercalate ((lineTokens line).take 3)) = some d →
      (lineTokens line).get? 5 = some t5 →
      strSlice1m1 t5 ≠ "" →
      pyFloatParse (strSlice1m1 t5) = Option.none →
      UFWLogEntry.from_str line =
        .error (.valueError "could not convert string to float")) := by
  refine ⟨?_, ?_, ?_⟩
  · intro hlen
    cases h3 : tsParse (" ".intercalate ((lineTokens line).take 3)) with
    | none =>
      refine ⟨.valueError "time data does not match format", ?_, .inr ⟨_, rfl⟩⟩
      simp [UFWLogEntry.from_str, bind, Except.bind, h3]
    | some d =>
      cases h5 : (lineTokens line)[5]? with
      | none =>
        refine ⟨.indexError, ?_, .inl rfl⟩
        simp [UFWLogEntry.from_str, bind, Except.bind, listGetExact, h3, h5]
      | some t5 =>
        cases hup : pyFloatParse (strSlice1m1 t5) with
        | none =>
          refine ⟨.valueError "could not convert string to float", ?_, .inr ⟨_, rfl⟩⟩
          simp [UFWLogEntry.from_str, bind, Except.bind, listGetExact, h3, h5, hup]
        | some f =>
          have h7 : (lineTokens line)[7]? = Option.none := by
            rw [← List.get?_eq_getElem?]
            exact List.get?_eq_none.mpr (by omega)
          refine ⟨.indexError, ?_, .inl rfl⟩
          simp [UFWLogEntry.from_str, bind, Except.bind, listGetExact, h3, h5, hup, h7]
  · intro h3
    simp [UFWLogEntry.from_str, bind, Except.bind, h3]
  · intro t5 d h3 h5 hne hup
    rw [List.get?_eq_getElem?] at h5
    simp [UFWLogEntry.from_str, bind, Except.bind, listGetExact, h3, h5, hup]

/-- C6 (witness): the three failure modes on concrete lines — a line with too
few tokens, a line with a malformed timestamp, and a line whose uptime token
is non-empty but not a float. -/
theorem c6_malformed_line_failures_witness :
    (∃ e, UFWLogEntry.from_str "Sep 21 10:15:32 myhost" = .error e ∧ MalformedLine e) ∧
    (UFWLogEntry.from_str "XXx 21 10:15:32 myhost kernel: [1.5] [UFW BLOCK] A=1 Z" =
      .error (.valueError "time data does not match format")) ∧
    (UFWLogEntry.from_str "Sep 21 10:15:32 myhost kernel: [x.y] [UFW BLOCK] A=1 Z" =
      .error (.valueError "could not convert string to float")) := by
  refine ⟨(c6_malformed_line_failures _).1 (by decide),
          (c6_malformed_line_failures _).2.1 (by rfl),
          (c6_malformed_line_failures _).2.2 "[x.y]" ⟨1900, 9, 21, 10, 15, 32, 0⟩
            (by rfl) (by rfl) (by decide) (by rfl)⟩

/-- C7 (counterexample): a `FieldRef` constructed with the absent (`None`)
bound name *can* be rebound — `getattr(self, 'attr', False)` is falsy for
`None`, so the immutability guard of `__setattr__` does not fire: the
assignment succeeds and changes the bound name, refuting the claim's "this
holds for every FieldRef, including one constructed with an absent name". -/
theorem c7_immutability_counterexample :
    LogFilter.make Option.none = .ok ⟨some Option.none⟩ ∧
    LogFilter.setattr ⟨some Option.none⟩ "attr" (some "DPT") =
      .ok ⟨some (some "DPT")⟩ ∧
    (⟨some (some "DPT")⟩ : LogFilter) ≠ ⟨some Option.none⟩ := by
  exact ⟨rfl, rfl, by decide⟩

/-- C7 (amended): for every `FieldRef` whose bound name is a *non-empty*
string, every attribute assignment (any name, any value) fails with the
`AttributeError` naming the field (uppercased), so the bound name is
unchanged; a `FieldRef` bound to `None` (or to the empty string) does not
enjoy the guard and can be rebound. -/
theorem c7_immutability (s : String) (hs : s ≠ "") (name : String)
    (v : Option String) :
    LogFilter.setattr ⟨some (some s)⟩ name v =
      .error (.attributeError (pyUpper s ++ " is immutable!")) ∧
    ∀ lf2, LogFilter.setattr ⟨some (some s)⟩ name v ≠ .ok lf2 := by
  refine ⟨by simp [LogFilter.setattr, hs], fun lf2 h => ?_⟩
  simp [LogFilter.setattr, hs] at h

/-- C7 (witness): rebinding the `DPT` field reference fails with the error
naming the field. -/
theorem c7_immutability_witness :
    LogFilter.setattr ⟨some (some "DPT")⟩ "attr" (some "SRC") =
      .error (.attributeError "DPT is immutable!") := by
  have h := c7_immutability "DPT" (by decide) "attr" (some "SRC")
  exact h.1

/-- C8: for boolean-valued predicates `P`, `Q`, `R` on an input `x`, the
`&`, `|`, `+` and `-` combinations evaluate to the corresponding boolean
operations (`+` has the same body as `|`), and `&` / `|` are associative;
combination builds a fresh `FilterFunction` and the components are pure
values, so they are not mutated. -/
theorem c8_predicate_algebra (P Q R : FilterFunction) (x : PyVal) (a b c : Bool)
    (hP : P.call x = .ok (.prim (.pbool a)))
    (hQ : Q.call x = .ok (.prim (.pbool b)))
    (hR : R.call x = .ok (.prim (.pbool c))) :
    (P.andOp Q.call).call x = .ok (.prim (.pbool (a && b))) ∧
    (P.orOp Q.call).call x = .ok (.prim (.pbool (a || b))) ∧
    (P.subOp Q.call).call x = .ok (.prim (.pbool (a && !b))) ∧
    (P.addOp Q.call).call x = (P.orOp Q.call).call x ∧
    ((P.andOp Q.call).andOp R.call).call x =
      (P.andOp (Q.andOp R.call).call).call x ∧
    ((P.orOp Q.call).orOp R.call).call x =
      (P.orOp (Q.orOp R.call).call).call x := by
  have hPf : P.func x = .ok (.prim (.pbool a)) := hP
  have hQf : Q.func x = .ok (.prim (.pbool b)) := hQ
  have hRf : R.func x = .ok (.prim (.pbool c)) := hR
  cases a <;> cases b <;> cases c <;>
    simp [FilterFunction.andOp, FilterFunction.orOp, FilterFunction.addOp,
          FilterFunction.subOp, FilterFunction.call, hPf, hQf, hRf, pyTruthy,
          bind, Except.bind, pure, Except.pure]

/-- C8 (witness): the algebra laws instantiated on two concrete boolean
predicates and a concrete input. -/
theorem c8_predicate_algebra_witness :
    ((FilterFunction.mk truePred).andOp
        (FilterFunction.mk (fun _ => .ok (.prim (.pbool false)))).call).call
      (.prim .pnone) = .ok (.prim (.pbool false)) ∧
    ((FilterFunction.mk truePred).orOp
        (FilterFunction.mk (fun _ => .ok (.prim (.pbool false)))).call).call
      (.prim .pnone) = .ok (.prim (.pbool true)) := by
  have h := c8_predicate_algebra (FilterFunction.mk truePred)
    (FilterFunction.mk (fun _ => .ok (.prim (.pbool false))))
    (FilterFunction.mk truePred) (.prim .pnone) true false true rfl rfl rfl
  exact ⟨h.1, h.2.1⟩

/-- `re.findall(pat, s)` for a *literal* (metacharacter-free) pattern:
the non-overlapping left-to-right occurrences of `pat` in `s`.  The `fuel`
argument bounds the scan; each step consumes at least one character. -/
def findallLitGo (p : List Char) : Nat → List Char → List (List Char)
  | 0, _ => []
  | _ + 1, [] => []
  | n + 1, c :: rest =>
    if p.isPrefixOf (c :: rest) then
      p :: findallLitGo p n ((c :: rest).drop p.length)
    else
      findallLitGo p n rest

/-- `re.findall` for a literal pattern (the empty pattern matches at every
position, as in `re`). -/
def findallLit (pat : String) (s : String) : List String :=
  if pat.data.isEmpty then List.replicate (s.data.length + 1) ""
  else (findallLitGo pat.data (s.data.length + 1) s.data).map String.mk

/-- C9 (counterexample): applying the pattern-match predicate
`DPT % "255"` to the parsed scenario record raises `TypeError` — the record's
`DPT` is the integer 25565 and `re.findall` receives it unconverted — even
though the pattern does occur in the string form `"25565"` (second conjunct).
This refutes the claim that the predicate is total and matches against the
string form of the field. -/
theorem c9_pattern_match_counterexample :
    ((LogFilter.mk (some (some "DPT"))).modOp (findallLit "255")).call
        (.entry c1entry) =
      .error (.typeError "expected string or bytes-like object") ∧
    findallLit "255" "25565" = ["255"] := by
  exact ⟨rfl, rfl⟩

/-- C9 (amended): for every field reference and abstract pattern semantics
`m`, the `%` predicate succeeds exactly on inputs whose extracted field is a
string `s`, returning true iff `m s` contains a non-empty match; when the
extracted field is any non-string value the predicate raises `TypeError`
(the field is *not* converted to its string form). -/
theorem c9_pattern_match (lf : LogFilter) (m : String → List String) (x : PyVal) :
    (∀ s, lf.extract x = .ok (.prim (.pstr s)) →
      (lf.modOp m).call x = .ok (.prim (.pbool ((m s).any (fun r => r != ""))))) ∧
    (∀ v, lf.extract x = .ok v → (∀ s, v ≠ .prim (.pstr s)) →
      (lf.modOp m).call x = .error (.typeError "expected string or bytes-like object")) := by
  constructor
  · intro s hs
    simp [LogFilter.modOp, FilterFunction.call, hs, reFindall, bind, Except.bind,
          pure, Except.pure]
  · intro v hv hns
    have : reFindall m v = .error (.typeError "expected string or bytes-like object") := by
      cases v with
      | prim p =>
        cases p with
        | pstr s => exact absurd rfl (hns s)
        | _ => rfl
      | entry e => rfl
    simp [LogFilter.modOp, FilterFunction.call, hv, this, bind, Except.bind]

/-- C9 (witness): the amended pattern-match theorem applied to a string field
(`PROTO`, matching a literal pattern inside `"TCP"`) and to a non-string
field (`DPT`). -/
theorem c9_pattern_match_witness :
    ((LogFilter.mk (some (some "PROTO"))).modOp (findallLit "CP")).call
        (.entry c1entry) = .ok (.prim (.pbool true)) ∧
    ((LogFilter.mk (some (some "DPT"))).modOp (findallLit "CP")).call
        (.entry c1entry) =
      .error (.typeError "expected string or bytes-like object") := by
  have h1 := (c9_pattern_match ⟨some (some "PROTO")⟩ (findallLit "CP")
    (.entry c1entry)).1 "TCP" rfl
  have h2 := (c9_pattern_match ⟨some (some "DPT")⟩ (findallLit "CP")
    (.entry c1entry)).2 (.prim (.pint 25565)) rfl (fun s hs => by simp at hs)
  exact ⟨by rw [h1]; rfl, h2⟩

/-- The string selector `"…"` iterated character-wise contributes nothing. -/
theorem getitemGo_str_chars (events : List UFWLogEntry) (cs : List Char) :
    getitemGo events (cs.map (fun ch => Sel.strSel (String.mk [ch]))) = .ok [] := by
  induction cs with
  | nil => rfl
  | cons ch rest ih =>
    simp [getitemGo, applySel, ih, bind, Except.bind, pure, Except.pure]

/-- C10: selectors that are none of the supported variants do not raise:
a string selector (standalone or inside a list) and any other non-iterable
non-int/slice/callable object contribute zero records, as does a list whose
elements are not all callable; inside a selector list they simply drop out of
the concatenation. -/
theorem c10_unsupported_selectors (events : List UFWLogEntry) (s : String)
    (es : List Sel) (h : es.all Sel.isCallable = false) :
    UFWLogFile.getitem events (.strSel s) = .ok [] ∧
    UFWLogFile.getitem events .otherNonIter = .ok [] ∧
    applySel events (.listSel es) = .ok [] ∧
    (∀ ss, UFWLogFile.getitem events (.listSel (Sel.strSel s :: ss)) =
      UFWLogFile.getitem events (.listSel ss)) ∧
    (∀ ss, UFWLogFile.getitem events (.listSel (Sel.otherNonIter :: ss)) =
      UFWLogFile.getitem events (.listSel ss)) ∧
    (∀ ss, UFWLogFile.getitem events (.listSel (Sel.listSel es :: ss)) =
      UFWLogFile.getitem events (.listSel ss)) := by
  have hlist : applySel events (.listSel es) = .ok [] := by
    simp [applySel, h]
  refine ⟨?_, rfl, hlist, ?_, ?_, ?_⟩
  · simp [UFWLogFile.getitem, Sel.isIterable, Sel.iterElems]
    exact getitemGo_str_chars events s.data
  · intro ss
    cases hss : getitemGo events ss <;>
      simp [UFWLogFile.getitem, Sel.isIterable, Sel.iterElems, getitemGo, applySel,
            hss, bind, Except.bind, pure, Except.pure]
  · intro ss
    cases hss : getitemGo events ss <;>
      simp [UFWLogFile.getitem, Sel.isIterable, Sel.iterElems, getitemGo, applySel,
            hss, bind, Except.bind, pure, Except.pure]
  · intro ss
    cases hss : getitemGo events ss <;>
      simp [UFWLogFile.getitem, Sel.isIterable, Sel.iterElems, getitemGo, hlist,
            hss, bind, Except.bind, pure, Except.pure]

/-- C10 (witness): a string selector and a mixed (not-all-callable) list
selector on the one-record collection return the empty list without error. -/
theorem c10_unsupported_selectors_witness :
    UFWLogFile.getitem [c1entry] (.strSel "abc") = .ok [] ∧
    UFWLogFile.getitem [c1entry] (.listSel [Sel.otherNonIter, Sel.fn truePred]) =
      UFWLogFile.getitem [c1entry] (.listSel [Sel.fn truePred]) := by
  have h := c10_unsupported_selectors [c1entry] "abc"
    [Sel.otherNonIter, Sel.fn truePred] (by rfl)
  exact ⟨h.1, h.2.2.2.2.1 [Sel.fn truePred]⟩

end UfwLogs
